import Mathlib

/-
  Shallow embedding of the interview application's core:

  * the LLM Gateway in `src/Hi/src/lib/webrtc-utils.ts` (gemini-utils part):
    rate-limit configuration, daily usage ledger (`trackApiUsage`), the
    request queue admission (`queueRequest`), the per-call `makeRequest`
    retry loops of `generateInterviewQuestion` and
    `generateInterviewFeedback`, and the deterministic fallback content
    (`getDefaultQuestion`, `getDefaultFeedback`);
  * the session turn handling of the InterviewSession component
    (`debouncedHandleUserSpeech`, `handleUserSpeech`);
  * the persistence layer's `storeRecording` (src/unnamed/part_001).

  Network, browser and Firebase collaborators are modelled as oracles:
  a function from the index of the fetch to its outcome, and an
  environment record for the storage backends.  Promise rejection is
  modelled with `Except`; a resolved promise is `Except.ok`.

  English contractions inside the source's string literals are
  transliterated ("didn't" becomes "did not", and so on); no claim
  depends on the exact wording of those constants.
-/

namespace InterviewApp

/-- The RATE_LIMIT configuration object of gemini-utils. -/
structure RateLimitConfig where
  requestsPerMinute : Nat
  maxRetries : Nat
  baseRetryDelay : Nat
  dailyQuota : Nat
  maxQueueSize : Nat
deriving Repr, DecidableEq

/-- Constant `RATE_LIMIT` from the source (the queue itself and the lock
are modelled separately as explicit state). -/
def RATE_LIMIT : RateLimitConfig :=
  { requestsPerMinute := 12
    maxRetries := 1
    baseRetryDelay := 2000
    dailyQuota := 1500
    maxQueueSize := 3 }

/-- JS `String.prototype.trim`: strips leading and trailing whitespace.
Modelled over the character list so that it evaluates by kernel
reduction (Lean's own `String.trim` does not). -/
def jsTrim (s : String) : String :=
  ⟨((s.data.dropWhile Char.isWhitespace).reverse.dropWhile
      Char.isWhitespace).reverse⟩

/-- JS `s.includes(sub)` for a non-empty pattern `sub`:
`s.splitOn sub` has at least two pieces exactly when `sub` occurs in `s`. -/
def containsSub (s sub : String) : Bool :=
  (s.splitOn sub).length > 1

/-- The usage ledger: calendar day (ISO date string) to request count,
as stored under `gemini_api_usage` in localStorage. -/
def Ledger : Type := String → Nat

/-- Function `trackApiUsage`: increments the counter for today in the ledger and returns
the updated ledger together with the new count (the source also emits a
90%-of-quota advisory toast; toasts are pure UI and are not modelled). -/
def trackApiUsage (usage : Ledger) (today : String) : Ledger × Nat :=
  let newCount := usage today + 1
  (fun d => if d = today then newCount else usage d, newCount)

/-- The ten role-flavored template questions of `getDefaultQuestion`. -/
def defaultQuestionPool (jobDescription : String) : List String :=
  let role := if containsSub jobDescription.toLower "software"
              then "software engineering" else "general"
  [ s!"Can you describe a challenging {role} problem you have solved recently?"
  , s!"What is your approach to debugging complex issues in {role}?"
  , s!"How do you ensure quality in your {role} projects?"
  , s!"Tell me about a time you had to learn a new technology quickly for {role}."
  , s!"How do you handle disagreements in a {role} team?"
  , s!"Describe your experience with responsive design in {role}."
  , s!"How do you approach compatibility issues in your {role} projects?"
  , s!"Explain your process for optimizing performance in {role}."
  , s!"What strategies do you use for testing in {role}?"
  , s!"How do you stay updated with the latest trends in {role}?" ]

/-- The fixed sentence used when the fallback pool is exhausted. -/
def exhaustedPoolQuestion : String :=
  "Can you share an example of a project you are proud of?"

/-- Function `getDefaultQuestion`: filters out already-asked questions and picks a
pool element at an environment-chosen index (`rand` models
`Math.floor(Math.random() * length)`; taken modulo the pool size, so every
source-reachable choice is representable).  On an empty filtered pool the
JS indexing yields `undefined` and `||` substitutes the fixed sentence. -/
def getDefaultQuestion (jobDescription : String) (previousQuestions : List String)
    (rand : Nat) : String :=
  let availableQuestions :=
    (defaultQuestionPool jobDescription).filter
      (fun q => ¬ previousQuestions.contains q)
  match availableQuestions.get? (rand % availableQuestions.length) with
  | some q => q
  | none => exhaustedPoolQuestion

/-- The structured feedback value. -/
structure Feedback where
  strengths : List String
  improvements : List String
  overallScore : Nat
deriving Repr, DecidableEq

/-- The `getDefaultFeedback` fallback structure. -/
def getDefaultFeedback : Feedback :=
  { strengths := ["Unable to generate detailed feedback"]
    improvements := ["Please try again with more detailed answers"]
    overallScore := 0 }

/-- Outcome of one `fetch` to the generation endpoint, as observed by the
question `makeRequest`: the fetch rejects (network failure), resolves with
a non-ok status, or resolves ok — in which case `body` is the extracted
`candidates[0].content.parts[0].text` (`none` when the JSON body does not
have that shape, which the source catches). -/
inductive FetchOutcome where
  | netError : FetchOutcome
  | httpError (status : Nat) : FetchOutcome
  | ok (body : Option String) : FetchOutcome
deriving Repr, DecidableEq

/-- The JSON object parsed from the feedback response text (each field may
be absent, `||`-defaulted by the source). -/
structure ParsedFeedback where
  strengths : Option (List String)
  improvements : Option (List String)
  overallScore : Option Nat
deriving Repr, DecidableEq

/-- Outcome of one `fetch` as observed by the feedback `makeRequest`:
on an ok response, `parsed` is the JSON object recovered from the
candidate text after stripping code fences (`none` when extraction or
`JSON.parse` throws, which the source catches). -/
inductive FeedbackFetch where
  | netError : FeedbackFetch
  | httpError (status : Nat) : FeedbackFetch
  | ok (parsed : Option ParsedFeedback) : FeedbackFetch
deriving Repr, DecidableEq

/-- Gateway state threaded through a call: the usage ledger and how many
fetches have been issued so far (the fetch count both counts network
requests and indexes the network oracle). -/
structure GwState where
  usage : Ledger
  fetched : Nat

/-- The `makeRequest` of `generateInterviewQuestion`.  `netQ` is the network
oracle.  Returns the resolved text, the final state, and the list of
delays (ms) awaited before re-invocations.  Mirrors the source:
increment-and-check the quota, fetch, on 429 wait 33000 and re-invoke
while `retries < maxRetries`, on other non-ok statuses re-invoke after
`baseRetryDelay * 2 ^ retries`, otherwise fall back; a thrown error
anywhere in the try block yields the fallback. -/
def makeRequestQ (netQ : Nat → FetchOutcome) (jobDescription : String)
    (previousQuestions : List String) (rand : Nat) (today : String)
    (st : GwState) (retries : Nat) : String × GwState × List Nat :=
  let checked := trackApiUsage st.usage today
  let st1 : GwState := ⟨checked.1, st.fetched⟩
  if RATE_LIMIT.dailyQuota ≤ checked.2 then
    (getDefaultQuestion jobDescription previousQuestions rand, st1, [])
  else
    match netQ st1.fetched with
    | .netError =>
        (getDefaultQuestion jobDescription previousQuestions rand,
         ⟨st1.usage, st1.fetched + 1⟩, [])
    | .httpError status =>
        let st2 : GwState := ⟨st1.usage, st1.fetched + 1⟩
        if status = 429 then
          if h : retries < RATE_LIMIT.maxRetries then
            let rec' := makeRequestQ netQ jobDescription previousQuestions
              rand today st2 (retries + 1)
            (rec'.1, rec'.2.1, 33000 :: rec'.2.2)
          else
            (getDefaultQuestion jobDescription previousQuestions rand, st2, [])
        else
          if h : retries < RATE_LIMIT.maxRetries then
            let rec' := makeRequestQ netQ jobDescription previousQuestions
              rand today st2 (retries + 1)
            (rec'.1, rec'.2.1, (RATE_LIMIT.baseRetryDelay * 2 ^ retries) :: rec'.2.2)
          else
            (getDefaultQuestion jobDescription previousQuestions rand, st2, [])
    | .ok body =>
        let st2 : GwState := ⟨st1.usage, st1.fetched + 1⟩
        match body with
        | some text => (jsTrim text, st2, [])
        | none =>
            (getDefaultQuestion jobDescription previousQuestions rand, st2, [])
termination_by RATE_LIMIT.maxRetries + 1 - retries
decreasing_by all_goals omega

/-- The `makeRequest` of `generateInterviewFeedback`.  Identical quota gate,
but on a 429 it returns the default feedback immediately (no delay, no
re-invocation); only other non-ok statuses are retried with exponential
backoff.  On an ok response the parsed JSON's fields are `||`-defaulted;
a parse failure (or any thrown error) yields the default feedback. -/
def makeRequestF (netF : Nat → FeedbackFetch) (today : String)
    (st : GwState) (retries : Nat) : Feedback × GwState × List Nat :=
  let checked := trackApiUsage st.usage today
  let st1 : GwState := ⟨checked.1, st.fetched⟩
  if RATE_LIMIT.dailyQuota ≤ checked.2 then
    (getDefaultFeedback, st1, [])
  else
    match netF st1.fetched with
    | .netError => (getDefaultFeedback, ⟨st1.usage, st1.fetched + 1⟩, [])
    | .httpError status =>
        let st2 : GwState := ⟨st1.usage, st1.fetched + 1⟩
        if status = 429 then
          (getDefaultFeedback, st2, [])
        else
          if h : retries < RATE_LIMIT.maxRetries then
            let rec' := makeRequestF netF today st2 (retries + 1)
            (rec'.1, rec'.2.1, (RATE_LIMIT.baseRetryDelay * 2 ^ retries) :: rec'.2.2)
          else
            (getDefaultFeedback, st2, [])
    | .ok parsed =>
        let st2 : GwState := ⟨st1.usage, st1.fetched + 1⟩
        match parsed with
        | some p =>
            ({ strengths := p.strengths.getD ["Response unclear"]
               improvements := p.improvements.getD ["Please provide more detailed answers"]
               overallScore := p.overallScore.getD 0 }, st2, [])
        | none => (getDefaultFeedback, st2, [])
termination_by RATE_LIMIT.maxRetries + 1 - retries
decreasing_by all_goals omega

/-- Queue admission check of `queueRequest`: when the queue already holds
`maxQueueSize` entries the request is rejected (`Promise.reject` with
"Request queue overloaded") without being pushed; otherwise the entry is
pushed at the back.  Entries are identified abstractly by a `Nat`. -/
def queueAdmit (queue : List Nat) (req : Nat) : Except String (List Nat) :=
  if RATE_LIMIT.maxQueueSize ≤ queue.length then
    .error "Request queue overloaded"
  else
    .ok (queue ++ [req])

/-- One dispatch decision of `processQueue`: `shift()` pops the front
entry (FIFO); on an empty queue nothing is dispatched. -/
def processQueueStep (queue : List Nat) : Option Nat × List Nat :=
  match queue with
  | [] => (none, [])
  | r :: rest => (some r, rest)

/-- The entries dispatched by the first `n` drains of `processQueue`
starting from `queue` (no new enqueues in between). -/
def dispatchedWithin (queue : List Nat) : Nat → List Nat
  | 0 => []
  | n + 1 =>
    match processQueueStep queue with
    | (none, _) => []
    | (some r, rest) => r :: dispatchedWithin rest n

/-- The ways `generateInterviewQuestion` can reject: a missing API key
(thrown before queueing) or queue overload (rejected by `queueRequest`). -/
inductive GenError where
  | apiKeyNotSet : GenError
  | queueOverloaded : GenError
deriving Repr, DecidableEq

/-- Operation `generateInterviewQuestion`: `apiKey` is the effective credential
after `initApiKey` merged the build-time variable and sessionStorage
(empty string means none found); when present, the call is admitted to
the queue and, when the queue is below capacity, its `makeRequest` runs
(dispatch mechanics preserve FIFO order and do not alter the call's own
result, so the dispatched computation is composed directly). -/
def generateInterviewQuestion (netQ : Nat → FetchOutcome) (apiKey : String)
    (queueLen : Nat) (jobDescription : String)
    (previousQuestions : List String) (rand : Nat) (today : String)
    (st : GwState) : Except GenError (String × GwState × List Nat) :=
  if apiKey = "" then
    .error .apiKeyNotSet
  else if RATE_LIMIT.maxQueueSize ≤ queueLen then
    .error .queueOverloaded
  else
    .ok (makeRequestQ netQ jobDescription previousQuestions rand today st 0)

/-- One `(question, answer)` transcript entry. -/
structure QA where
  question : String
  answer : String
deriving Repr, DecidableEq

/-- Operation `generateInterviewFeedback`: a missing key resolves with the default
feedback (it does not throw); a transcript with no non-empty trimmed
answer short-circuits to the zero-score structure before any queueing or
network activity; otherwise the call is queued and its `makeRequest`
runs. -/
def generateInterviewFeedback (netF : Nat → FeedbackFetch) (apiKey : String)
    (queueLen : Nat) (transcript : List QA) (today : String)
    (st : GwState) : Except GenError (Feedback × GwState × List Nat) :=
  if apiKey = "" then
    .ok (getDefaultFeedback, st, [])
  else if ¬ transcript.any (fun item => (jsTrim item.answer).length > 0) then
    .ok ({ strengths := ["No answers provided"]
           improvements := ["Please provide answers to the interview questions"]
           overallScore := 0 }, st, [])
  else if RATE_LIMIT.maxQueueSize ≤ queueLen then
    .error .queueOverloaded
  else
    .ok (makeRequestF netF today st 0)

/-- The inputs of one dispatched `generateInterviewQuestion` call in a
sequence: its job description, previously asked questions, and the
environment's random pick for the fallback pool. -/
structure QuestionCall where
  jobDescription : String
  previousQuestions : List String
  rand : Nat

/-- Runs a sequence of dispatched question calls (each awaited before the
next is issued), threading the gateway state; returns each call's
resolved text together with the final state. -/
def runQuestionCalls (netQ : Nat → FetchOutcome) (today : String) :
    List QuestionCall → GwState → List String × GwState
  | [], st => ([], st)
  | c :: cs, st =>
    let r := makeRequestQ netQ c.jobDescription c.previousQuestions c.rand today st 0
    let rest := runQuestionCalls netQ today cs r.2.1
    (r.1 :: rest.1, rest.2)

/-- One conversation turn of the InterviewSession component. -/
structure ChatTurn where
  role : String
  content : String
deriving Repr, DecidableEq

/-- The session-machine state touched by utterance handling: the
conversation turns, the session transcript of `(question, answer)` pairs,
and the last processed utterance (`lastSpeechRef`). -/
structure SessionState where
  conversation : List ChatTurn
  transcript : List QA
  lastSpeech : String
deriving Repr, DecidableEq

/-- Outcome of the awaited `generateAIResponse` inside a turn: resolved
text, or a rejection (missing key, queue overload, or the component's own
"Empty response from API" throw). -/
inductive GenOutcome where
  | success (text : String) : GenOutcome
  | failure : GenOutcome
deriving Repr, DecidableEq

/-- The fixed apology inserted by the turn handler's catch branch. -/
def didNotCatchResponse : String :=
  "I did not quite catch that. Could you please rephrase or share more details?"

/-- The thanks inserted by the catch branch when the utterance mentions
"done". -/
def doneResponse : String :=
  "Thank you for the interview! I will provide feedback shortly."

/-- Handler `handleUserSpeech` of the InterviewSession component: appends the user
turn to the conversation, awaits the generated response and appends it;
on failure, appends a canned fallback turn unless the stale conversation
already contains the apology.  Mirrors the source's state updates (timers,
speech synthesis and UI flags are outside the model). -/
def handleUserSpeech (st : SessionState) (text : String)
    (gen : GenOutcome) : SessionState :=
  let conv1 := st.conversation ++ [⟨"user", text⟩]
  match gen with
  | .success ai =>
      { st with conversation := conv1 ++ [⟨"assistant", ai⟩] }
  | .failure =>
      if st.conversation.any (fun msg => msg.content = didNotCatchResponse) then
        { st with conversation := conv1 }
      else
        let fallbackResponse :=
          if containsSub text.toLower "done" then doneResponse
          else didNotCatchResponse
        { st with conversation := conv1 ++ [⟨"assistant", fallbackResponse⟩] }

/-- Handler `debouncedHandleUserSpeech`: skips an utterance equal to the last
processed one; otherwise records it as last processed and runs
`handleUserSpeech`.  The returned flag is `true` exactly when a turn was
processed (hence a generation request issued). -/
def debouncedHandleUserSpeech (st : SessionState) (text : String)
    (gen : GenOutcome) : SessionState × Bool :=
  if text = st.lastSpeech then
    (st, false)
  else
    (handleUserSpeech { st with lastSpeech := text } text gen, true)

/-- A recording fragment (media blob), abstracted to its byte content. -/
abbrev Frag : Type := List Nat

/-- Environment of `storeRecording`: whether Firebase storage is
configured, whether the page runs on localhost, the result of the
`uploadBytes` + `getDownloadURL` interaction (`some url` on success,
`none` when it throws or the localhost race times out), whether the
follow-up Firestore session-document read/update completes without
throwing, and the identifier the browser mints for
`URL.createObjectURL`. -/
structure StoreEnv where
  firebaseConfigured : Bool
  isLocalhost : Bool
  upload : Option String
  sessionUpdateOk : Bool
  objectUrlId : String

/-- Browser API `URL.createObjectURL`: the browser returns a `blob:` URL for the
given blob. -/
def createObjectURL (env : StoreEnv) : String :=
  "blob:" ++ env.objectUrlId

/-- Function `storeRecording` of the database service: empty input throws inside
the outer try and is caught by the outer handler, which resolves with an
object URL; otherwise, without Firebase the object URL is returned
directly; on localhost a failed or timed-out upload falls back to the
object URL; in production a successful upload is followed by the
session-document update, whose failure is caught by the same handler and
also falls back to the object URL.  Every path resolves. -/
def storeRecording (env : StoreEnv) (sessionId : String)
    (recordingBlobs : List Frag) : Except String String :=
  if recordingBlobs.length = 0 then
    .ok (createObjectURL env)
  else if ¬ env.firebaseConfigured then
    .ok (createObjectURL env)
  else if env.isLocalhost then
    match env.upload with
    | some url => .ok url
    | none => .ok (createObjectURL env)
  else
    match env.upload with
    | some url =>
        if env.sessionUpdateOk then .ok url
        else .ok (createObjectURL env)
    | none => .ok (createObjectURL env)

/-- The condition under which `storeRecording` returns the remote download
URL rather than a local object URL: Firebase is configured, the upload
interaction succeeded, and — off localhost — the follow-up
session-document update also completed without throwing. -/
def remoteRefReturned (env : StoreEnv) : Prop :=
  env.firebaseConfigured = true ∧ env.upload.isSome = true ∧
    (env.isLocalhost = true ∨ env.sessionUpdateOk = true)

/-! Helper lemmas shared by the claim theorems. -/

theorem createObjectURL_ne_empty (env : StoreEnv) : createObjectURL env ≠ "" := by
  unfold createObjectURL
  intro h
  have hlen := congrArg String.length h
  rw [String.length_append] at hlen
  have h5 : ("blob:" : String).length = 5 := rfl
  have h0 : ("" : String).length = 0 := rfl
  omega

theorem trackApiUsage_count (usage : Ledger) (today : String) :
    (trackApiUsage usage today).2 = usage today + 1 := rfl

theorem trackApiUsage_today (usage : Ledger) (today : String) :
    (trackApiUsage usage today).1 today = usage today + 1 := by
  simp [trackApiUsage]

theorem getDefaultQuestion_mem_or_exhausted (jobDescription : String)
    (previousQuestions : List String) (rand : Nat) :
    getDefaultQuestion jobDescription previousQuestions rand ∈
        defaultQuestionPool jobDescription ∨
      getDefaultQuestion jobDescription previousQuestions rand =
        exhaustedPoolQuestion := by
  unfold getDefaultQuestion
  set avail := (defaultQuestionPool jobDescription).filter
    (fun q => ¬ previousQuestions.contains q) with havail
  rcases hget : avail.get? (rand % avail.length) with _ | q
  · right
    simp only [hget]
  · have hmem : q ∈ avail := List.get?_mem hget
    rw [havail] at hmem
    simp only [hget]
    left
    exact (List.mem_filter.mp hmem).1

/-- Once `trackApiUsage` pushes today's count to the quota or beyond, the
question `makeRequest` returns the fallback without consuming the network
oracle. -/
theorem makeRequestQ_fallback_of_quota (netQ : Nat → FetchOutcome)
    (jobDescription : String) (previousQuestions : List String) (rand : Nat)
    (today : String) (st : GwState) (retries : Nat)
    (h : RATE_LIMIT.dailyQuota ≤ st.usage today + 1) :
    makeRequestQ netQ jobDescription previousQuestions rand today st retries =
      (getDefaultQuestion jobDescription previousQuestions rand,
        ⟨(trackApiUsage st.usage today).1, st.fetched⟩, []) := by
  rw [makeRequestQ]
  simp only [trackApiUsage_count]
  rw [if_pos h]

/-- C1: for every sequence of dispatched `generateInterviewQuestion` calls
made on a day whose usage-ledger count has already reached the daily
quota, each call returns fallback text from the default-question pool
(or the fixed exhausted-pool sentence) and no network request is made
(the fetch counter is unchanged). -/
theorem quotaExhausted_sequence_fallback (netQ : Nat → FetchOutcome)
    (today : String) (calls : List QuestionCall) (st : GwState)
    (h : RATE_LIMIT.dailyQuota ≤ st.usage today) :
    (runQuestionCalls netQ today calls st).1 =
        calls.map (fun c =>
          getDefaultQuestion c.jobDescription c.previousQuestions c.rand) ∧
      (runQuestionCalls netQ today calls st).2.fetched = st.fetched ∧
      ∀ q ∈ (runQuestionCalls netQ today calls st).1,
        ∃ c ∈ calls,
          q = getDefaultQuestion c.jobDescription c.previousQuestions c.rand ∧
            (q ∈ defaultQuestionPool c.jobDescription ∨
              q = exhaustedPoolQuestion) := by
  induction calls generalizing st with
  | nil => simp [runQuestionCalls]
  | cons c cs ih =>
    have hq1 : RATE_LIMIT.dailyQuota ≤ st.usage today + 1 := by omega
    have hr := makeRequestQ_fallback_of_quota netQ c.jobDescription
      c.previousQuestions c.rand today st 0 hq1
    have hst : RATE_LIMIT.dailyQuota ≤
        (GwState.mk (trackApiUsage st.usage today).1 st.fetched).usage today := by
      show RATE_LIMIT.dailyQuota ≤ (trackApiUsage st.usage today).1 today
      rw [trackApiUsage_today] ; omega
    obtain ⟨ih1, ih2, ih3⟩ :=
      ih (GwState.mk (trackApiUsage st.usage today).1 st.fetched) hst
    refine ⟨?_, ?_, ?_⟩
    · simp only [runQuestionCalls, hr, List.map_cons]
      exact congrArg _ ih1
    · simp only [runQuestionCalls, hr]
      exact ih2
    · simp only [runQuestionCalls, hr]
      intro q hq
      rcases List.mem_cons.mp hq with hq | hq
      · exact ⟨c, List.mem_cons_self c cs, hq,
          hq ▸ getDefaultQuestion_mem_or_exhausted c.jobDescription
            c.previousQuestions c.rand⟩
      · obtain ⟨c2, hc2, hqeq, hpool⟩ := ih3 q hq
        exact ⟨c2, List.mem_cons_of_mem c hc2, hqeq, hpool⟩

/-- Witness for C1 at a concrete exhausted ledger. -/
theorem quotaExhausted_sequence_fallback_witness :
    RATE_LIMIT.dailyQuota ≤ (GwState.mk (fun _ => 1500) 0).usage "d" ∧
      ((runQuestionCalls (fun _ => .netError) "d"
            [⟨"j", [], 0⟩] (GwState.mk (fun _ => 1500) 0)).1 =
          [(⟨"j", [], 0⟩ : QuestionCall)].map (fun c =>
            getDefaultQuestion c.jobDescription c.previousQuestions c.rand) ∧
        (runQuestionCalls (fun _ => .netError) "d"
            [⟨"j", [], 0⟩] (GwState.mk (fun _ => 1500) 0)).2.fetched =
          (GwState.mk (fun _ => 1500) 0).fetched ∧
        ∀ q ∈ (runQuestionCalls (fun _ => .netError) "d"
            [⟨"j", [], 0⟩] (GwState.mk (fun _ => 1500) 0)).1,
          ∃ c ∈ [(⟨"j", [], 0⟩ : QuestionCall)],
            q = getDefaultQuestion c.jobDescription c.previousQuestions c.rand ∧
              (q ∈ defaultQuestionPool c.jobDescription ∨
                q = exhaustedPoolQuestion)) :=
  ⟨by decide, quotaExhausted_sequence_fallback _ _ _ _ (by decide)⟩

/-- C2 counterexample: with today's counter standing at dailyQuota - 1,
the next dispatched call performs no network request at all (the fetch
counter stays 0) and returns the pool fallback — the claim says that this
call still goes to the network once. -/
theorem thresholdCall_networkClaim_cex :
    (makeRequestQ (fun _ => .ok (some "live")) "j" [] 0 "d"
        (GwState.mk (fun _ => RATE_LIMIT.dailyQuota - 1) 0) 0).2.1.fetched = 0 ∧
      (makeRequestQ (fun _ => .ok (some "live")) "j" [] 0 "d"
        (GwState.mk (fun _ => RATE_LIMIT.dailyQuota - 1) 0) 0).1 =
        getDefaultQuestion "j" [] 0 := by
  have h := makeRequestQ_fallback_of_quota (fun _ => .ok (some "live"))
    "j" [] 0 "d" (GwState.mk (fun _ => RATE_LIMIT.dailyQuota - 1) 0) 0 (by decide)
  rw [h]
  exact ⟨rfl, rfl⟩

/-- C2 (amended): when today's counter stands at dailyQuota - 1, the next
dispatched call increments the counter to the quota before the check and
is therefore already pure fallback: no network request, no delay, pool
fallback text. -/
theorem thresholdCall_pureFallback (netQ : Nat → FetchOutcome)
    (jobDescription : String) (previousQuestions : List String) (rand : Nat)
    (today : String) (st : GwState)
    (h : st.usage today + 1 = RATE_LIMIT.dailyQuota) :
    makeRequestQ netQ jobDescription previousQuestions rand today st 0 =
      (getDefaultQuestion jobDescription previousQuestions rand,
        ⟨(trackApiUsage st.usage today).1, st.fetched⟩, []) :=
  makeRequestQ_fallback_of_quota netQ jobDescription previousQuestions rand
    today st 0 (by omega)

/-- Witness for C2 (amended) at a concrete ledger standing at 1499. -/
theorem thresholdCall_pureFallback_witness :
    (GwState.mk (fun _ => 1499) 0).usage "d" + 1 = RATE_LIMIT.dailyQuota ∧
      makeRequestQ (fun _ => .ok (some "live")) "j" [] 0 "d"
          (GwState.mk (fun _ => 1499) 0) 0 =
        (getDefaultQuestion "j" [] 0,
          ⟨(trackApiUsage (GwState.mk (fun _ => 1499) 0).usage "d").1,
            (GwState.mk (fun _ => 1499) 0).fetched⟩, []) :=
  ⟨by decide, thresholdCall_pureFallback _ _ _ _ _ _ (by decide)⟩

/-- Under an all-429 network, the question `makeRequest` started at
`retries = 0` waits the 33-second delay exactly once, performs exactly
two fetches, and returns the fallback. -/
theorem makeRequestQ_429_twice (netQ : Nat → FetchOutcome)
    (jobDescription : String) (previousQuestions : List String) (rand : Nat)
    (today : String) (st : GwState)
    (hnet : ∀ n, netQ n = .httpError 429)
    (hq : st.usage today + 2 < RATE_LIMIT.dailyQuota) :
    makeRequestQ netQ jobDescription previousQuestions rand today st 0 =
      (getDefaultQuestion jobDescription previousQuestions rand,
        ⟨(trackApiUsage (trackApiUsage st.usage today).1 today).1,
          st.fetched + 2⟩, [33000]) := by
  have h1 : ¬ RATE_LIMIT.dailyQuota ≤ st.usage today + 1 := by omega
  have h2 : ¬ RATE_LIMIT.dailyQuota ≤ (trackApiUsage st.usage today).1 today + 1 := by
    rw [trackApiUsage_today] ; omega
  rw [makeRequestQ]
  simp only [trackApiUsage_count, if_neg h1, hnet]
  rw [makeRequestQ]
  simp only [trackApiUsage_count, if_neg h2, hnet]
  norm_num [RATE_LIMIT]

/-- Under a 429 response, the feedback `makeRequest` performs exactly one
fetch, waits no delay, and returns the default feedback immediately. -/
theorem makeRequestF_429_immediate (netF : Nat → FeedbackFetch)
    (today : String) (st : GwState)
    (hnet : netF st.fetched = .httpError 429)
    (hq : st.usage today + 1 < RATE_LIMIT.dailyQuota) :
    makeRequestF netF today st 0 =
      (getDefaultFeedback, ⟨(trackApiUsage st.usage today).1, st.fetched + 1⟩, []) := by
  have h1 : ¬ RATE_LIMIT.dailyQuota ≤ st.usage today + 1 := by omega
  rw [makeRequestF]
  simp only [trackApiUsage_count, if_neg h1, hnet]
  norm_num

/-- C3 counterexample: the feedback operation, on an HTTP 429 with fresh
quota, returns the default feedback after exactly one fetch and with an
empty delay list — it does not wait the 33-second delay and does not
retry, refuting the claim that both gateway operations retry a 429 once
after the long delay. -/
theorem feedback429_immediateFallback_cex :
    (makeRequestF (fun _ => .httpError 429) "d" (GwState.mk (fun _ => 0) 0) 0).1 =
        getDefaultFeedback ∧
      (makeRequestF (fun _ => .httpError 429) "d"
          (GwState.mk (fun _ => 0) 0) 0).2.1.fetched = 1 ∧
      (makeRequestF (fun _ => .httpError 429) "d"
          (GwState.mk (fun _ => 0) 0) 0).2.2 = [] := by
  have h := makeRequestF_429_immediate (fun _ => .httpError 429) "d"
    (GwState.mk (fun _ => 0) 0) rfl (by decide)
  rw [h]
  exact ⟨rfl, rfl, rfl⟩

/-- C3 (amended): on an HTTP 429 below quota, the question operation waits the 33-second delay and retries exactly once (two
fetches, one delay entry) before returning the fallback, and never
retries more than once; the feedback operation
returns the default feedback immediately on a 429, with no delay and no
retry. -/
theorem retry429_policy_bothOps (netQ : Nat → FetchOutcome)
    (netF : Nat → FeedbackFetch) (jobDescription : String)
    (previousQuestions : List String) (rand : Nat) (today : String)
    (stQ stF : GwState)
    (hQ : ∀ n, netQ n = .httpError 429)
    (hF : netF stF.fetched = .httpError 429)
    (hqQ : stQ.usage today + 2 < RATE_LIMIT.dailyQuota)
    (hqF : stF.usage today + 1 < RATE_LIMIT.dailyQuota) :
    (makeRequestQ netQ jobDescription previousQuestions rand today stQ 0).1 =
        getDefaultQuestion jobDescription previousQuestions rand ∧
      (makeRequestQ netQ jobDescription previousQuestions rand today stQ 0).2.1.fetched =
        stQ.fetched + 2 ∧
      (makeRequestQ netQ jobDescription previousQuestions rand today stQ 0).2.2 =
        [33000] ∧
      (makeRequestF netF today stF 0).1 = getDefaultFeedback ∧
      (makeRequestF netF today stF 0).2.1.fetched = stF.fetched + 1 ∧
      (makeRequestF netF today stF 0).2.2 = [] := by
  have hq := makeRequestQ_429_twice netQ jobDescription previousQuestions
    rand today stQ hQ hqQ
  have hf := makeRequestF_429_immediate netF today stF hF hqF
  rw [hq, hf]
  exact ⟨rfl, rfl, rfl, rfl, rfl, rfl⟩

/-- Witness for C3 (amended) at concrete all-429 networks. -/
theorem retry429_policy_bothOps_witness :
    (∀ n, (fun _ : Nat => FetchOutcome.httpError 429) n = .httpError 429) ∧
      ((fun _ : Nat => FeedbackFetch.httpError 429)
          (GwState.mk (fun _ => 0) 0).fetched = .httpError 429) ∧
      ((GwState.mk (fun _ => 0) 0).usage "d" + 2 < RATE_LIMIT.dailyQuota) ∧
      ((GwState.mk (fun _ => 0) 0).usage "d" + 1 < RATE_LIMIT.dailyQuota) ∧
      ((makeRequestQ (fun _ => .httpError 429) "j" [] 0 "d"
            (GwState.mk (fun _ => 0) 0) 0).1 = getDefaultQuestion "j" [] 0 ∧
        (makeRequestQ (fun _ => .httpError 429) "j" [] 0 "d"
            (GwState.mk (fun _ => 0) 0) 0).2.1.fetched =
          (GwState.mk (fun _ => 0) 0).fetched + 2 ∧
        (makeRequestQ (fun _ => .httpError 429) "j" [] 0 "d"
            (GwState.mk (fun _ => 0) 0) 0).2.2 = [33000] ∧
        (makeRequestF (fun _ => .httpError 429) "d"
            (GwState.mk (fun _ => 0) 0) 0).1 = getDefaultFeedback ∧
        (makeRequestF (fun _ => .httpError 429) "d"
            (GwState.mk (fun _ => 0) 0) 0).2.1.fetched =
          (GwState.mk (fun _ => 0) 0).fetched + 1 ∧
        (makeRequestF (fun _ => .httpError 429) "d"
            (GwState.mk (fun _ => 0) 0) 0).2.2 = []) :=
  ⟨fun _ => rfl, rfl, by decide, by decide,
    retry429_policy_bothOps _ _ _ _ _ _ _ _ (fun _ => rfl) rfl
      (by decide) (by decide)⟩

/-- C4 counterexample: with a non-empty API credential but a full request
queue, `generateInterviewQuestion` rejects (with the queue-overloaded
error), refuting the claim that the only inputs on which it may reject
are a missing API credential. -/
theorem questionRejects_onFullQueue_cex :
    generateInterviewQuestion (fun _ => .ok (some "live")) "key" 3 "j" [] 0 "d"
        (GwState.mk (fun _ => 0) 0) = .error .queueOverloaded ∧
      ("key" : String) ≠ "" := by
  constructor
  · rfl
  · decide

/-- C4 (amended): `generateInterviewQuestion` resolves — with some text,
for every network behaviour, remote error, network failure, or exhausted
quota — exactly when the API credential is present and the request queue
is below capacity; it rejects exactly on a missing credential or on a
full queue, and the error is `apiKeyNotSet` in the first case and
`queueOverloaded` in the second. -/
theorem generateInterviewQuestion_resolve_iff (netQ : Nat → FetchOutcome)
    (apiKey : String) (queueLen : Nat) (jobDescription : String)
    (previousQuestions : List String) (rand : Nat) (today : String)
    (st : GwState) :
    ((∃ r, generateInterviewQuestion netQ apiKey queueLen jobDescription
        previousQuestions rand today st = .ok r) ↔
      (apiKey ≠ "" ∧ queueLen < RATE_LIMIT.maxQueueSize)) ∧
      (apiKey = "" →
        generateInterviewQuestion netQ apiKey queueLen jobDescription
          previousQuestions rand today st = .error .apiKeyNotSet) ∧
      (apiKey ≠ "" → RATE_LIMIT.maxQueueSize ≤ queueLen →
        generateInterviewQuestion netQ apiKey queueLen jobDescription
          previousQuestions rand today st = .error .queueOverloaded) := by
  unfold generateInterviewQuestion
  by_cases hk : apiKey = ""
  · simp [hk]
  · by_cases hlen : RATE_LIMIT.maxQueueSize ≤ queueLen
    · simp [hk, hlen]
      try omega
    · simp [hk, hlen]
      try omega

/-- Witness for C4 (amended) at a concrete credential and queue length. -/
theorem generateInterviewQuestion_resolve_iff_witness :
    ((∃ r, generateInterviewQuestion (fun _ => .netError) "key" 0 "j" [] 0 "d"
          (GwState.mk (fun _ => 0) 0) = .ok r) ↔
        (("key" : String) ≠ "" ∧ 0 < RATE_LIMIT.maxQueueSize)) ∧
      (("key" : String) = "" →
        generateInterviewQuestion (fun _ => .netError) "key" 0 "j" [] 0 "d"
          (GwState.mk (fun _ => 0) 0) = .error .apiKeyNotSet) ∧
      (("key" : String) ≠ "" → RATE_LIMIT.maxQueueSize ≤ 0 →
        generateInterviewQuestion (fun _ => .netError) "key" 0 "j" [] 0 "d"
          (GwState.mk (fun _ => 0) 0) = .error .queueOverloaded) :=
  generateInterviewQuestion_resolve_iff _ _ _ _ _ _ _ _

theorem dispatchedWithin_subset (queue : List Nat) (n : Nat) :
    ∀ a ∈ dispatchedWithin queue n, a ∈ queue := by
  induction n generalizing queue with
  | zero =>
    intro a ha
    simp [dispatchedWithin] at ha
  | succ n ih =>
    cases queue with
    | nil =>
      intro a ha
      simp [dispatchedWithin, processQueueStep] at ha
    | cons r rest =>
      intro a ha
      simp only [dispatchedWithin, processQueueStep] at ha
      rcases List.mem_cons.mp ha with h | h
      · exact h ▸ List.mem_cons_self r rest
      · exact List.mem_cons_of_mem r (ih rest a h)

/-- C5: a request submitted while the queue already holds `maxQueueSize`
pending entries is rejected with the queue-overloaded error, is never
enqueued (the queue is left as it was, so no FIFO drain ever dispatches
it), while a request submitted below the bound is enqueued at the back. -/
theorem queueOverflow_rejected_undispatched (queue : List Nat) (req : Nat)
    (hfull : RATE_LIMIT.maxQueueSize ≤ queue.length) (hfresh : req ∉ queue) :
    queueAdmit queue req = .error "Request queue overloaded" ∧
      (∀ n, req ∉ dispatchedWithin queue n) ∧
      ∀ q : List Nat, q.length < RATE_LIMIT.maxQueueSize →
        queueAdmit q req = .ok (q ++ [req]) := by
  refine ⟨?_, ?_, ?_⟩
  · unfold queueAdmit
    rw [if_pos hfull]
  · intro n hmem
    exact hfresh (dispatchedWithin_subset queue n req hmem)
  · intro q hlen
    unfold queueAdmit
    rw [if_neg (by omega)]

/-- Witness for C5 at a concrete full queue. -/
theorem queueOverflow_rejected_undispatched_witness :
    RATE_LIMIT.maxQueueSize ≤ ([10, 11, 12] : List Nat).length ∧
      (7 : Nat) ∉ ([10, 11, 12] : List Nat) ∧
      (queueAdmit [10, 11, 12] 7 = .error "Request queue overloaded" ∧
        (∀ n, (7 : Nat) ∉ dispatchedWithin [10, 11, 12] n) ∧
        ∀ q : List Nat, q.length < RATE_LIMIT.maxQueueSize →
          queueAdmit q 7 = .ok (q ++ [7])) :=
  ⟨by decide, by decide,
    queueOverflow_rejected_undispatched _ _ (by decide) (by decide)⟩

/-- C6: on a transcript whose answers are all empty after trimming,
`generateInterviewFeedback` resolves with a structure whose overallScore
is 0, with the gateway state unchanged (no network request) and no
delays, before any queueing takes place. -/
theorem emptyAnswers_zeroScore_noNetwork (netF : Nat → FeedbackFetch)
    (apiKey : String) (queueLen : Nat) (transcript : List QA)
    (today : String) (st : GwState)
    (h : ∀ qa ∈ transcript, jsTrim qa.answer = "") :
    ∃ fb : Feedback,
      generateInterviewFeedback netF apiKey queueLen transcript today st =
        .ok (fb, st, []) ∧ fb.overallScore = 0 := by
  have hnot : ¬ (transcript.any
      (fun item => (jsTrim item.answer).length > 0) = true) := by
    rw [List.any_eq_true]
    rintro ⟨x, hx, hp⟩
    rw [h x hx] at hp
    simp at hp
  unfold generateInterviewFeedback
  by_cases hk : apiKey = ""
  · rw [if_pos hk]
    exact ⟨getDefaultFeedback, rfl, rfl⟩
  · rw [if_neg hk, if_pos hnot]
    exact ⟨⟨["No answers provided"],
      ["Please provide answers to the interview questions"], 0⟩, rfl, rfl⟩

/-- Witness for C6 at a concrete transcript of blank answers. -/
theorem emptyAnswers_zeroScore_noNetwork_witness :
    (∀ qa ∈ [(⟨"Q1", " "⟩ : QA), ⟨"Q2", ""⟩], jsTrim qa.answer = "") ∧
      ∃ fb : Feedback,
        generateInterviewFeedback (fun _ => .netError) "key" 0
            [⟨"Q1", " "⟩, ⟨"Q2", ""⟩] "d" (GwState.mk (fun _ => 0) 0) =
          .ok (fb, GwState.mk (fun _ => 0) 0, []) ∧ fb.overallScore = 0 :=
  ⟨by decide, emptyAnswers_zeroScore_noNetwork _ _ _ _ _ _ (by decide)⟩

/-- C7 counterexample: in the production path, a successful upload whose
follow-up session-document update throws resolves with the local object
URL, not the remote download URL — refuting the claim's "a remote
download URL when the upload succeeds". -/
theorem storeRecording_uploadOk_objectUrl_cex :
    storeRecording
        ⟨true, false, some "https://example.com/rec.webm", false, "oid"⟩
        "s1" [[1]] = .ok "blob:oid" ∧
      ("blob:oid" : String) ≠ "https://example.com/rec.webm" := by
  constructor
  · rfl
  · decide

/-- C7 (amended): for every non-empty fragment list, `storeRecording`
resolves (never rejects) with a non-empty reference — the remote download
URL when the upload succeeds and, off localhost, the follow-up
session-record update also succeeds; otherwise a locally constructed
object URL. -/
theorem storeRecording_resolves_nonempty (env : StoreEnv)
    (sessionId : String) (recordingBlobs : List Frag)
    (hne : recordingBlobs ≠ [])
    (hurl : ∀ u, env.upload = some u → u ≠ "") :
    ∃ url, storeRecording env sessionId recordingBlobs = .ok url ∧
      url ≠ "" ∧
      (remoteRefReturned env → env.upload = some url) ∧
      (¬ remoteRefReturned env → url = createObjectURL env) := by
  have hlen : ¬ (recordingBlobs.length = 0) := by
    simpa [List.length_eq_zero] using hne
  unfold storeRecording
  rw [if_neg hlen]
  cases hcfg : env.firebaseConfigured with
  | false =>
    rw [if_pos (by simp [hcfg])]
    refine ⟨createObjectURL env, rfl, createObjectURL_ne_empty env, ?_,
      fun _ => rfl⟩
    rintro ⟨hc, -⟩
    simp [hcfg] at hc
  | true =>
    rw [if_neg (by simp [hcfg])]
    cases hlh : env.isLocalhost with
    | true =>
      rw [if_pos rfl]
      cases hup : env.upload with
      | none =>
        refine ⟨createObjectURL env, rfl, createObjectURL_ne_empty env, ?_,
          fun _ => rfl⟩
        rintro ⟨-, hs, -⟩
        simp [hup] at hs
      | some u =>
        refine ⟨u, rfl, hurl u hup, fun _ => rfl, fun hnr => absurd ?_ hnr⟩
        exact ⟨hcfg, by rw [hup] ; rfl, Or.inl hlh⟩
    | false =>
      rw [if_neg (by simp [hlh])]
      cases hup : env.upload with
      | none =>
        refine ⟨createObjectURL env, rfl, createObjectURL_ne_empty env, ?_,
          fun _ => rfl⟩
        rintro ⟨-, hs, -⟩
        simp [hup] at hs
      | some u =>
        cases hsup : env.sessionUpdateOk with
        | true =>
          refine ⟨u, rfl, hurl u hup, fun _ => rfl, fun hnr => absurd ?_ hnr⟩
          exact ⟨hcfg, by rw [hup] ; rfl, Or.inr hsup⟩
        | false =>
          refine ⟨createObjectURL env, rfl, createObjectURL_ne_empty env, ?_,
            fun _ => rfl⟩
          rintro ⟨-, -, hor⟩
          rcases hor with hx | hx
          · simp [hlh] at hx
          · simp [hsup] at hx

/-- Witness for C7 (amended) at a concrete unconfigured environment. -/
theorem storeRecording_resolves_nonempty_witness :
    ([[0]] : List Frag) ≠ [] ∧
      (∀ u, (StoreEnv.mk false false none false "id42").upload = some u →
        u ≠ "") ∧
      ∃ url, storeRecording (StoreEnv.mk false false none false "id42")
          "sess" [[0]] = .ok url ∧ url ≠ "" ∧
        (remoteRefReturned (StoreEnv.mk false false none false "id42") →
          (StoreEnv.mk false false none false "id42").upload = some url) ∧
        (¬ remoteRefReturned (StoreEnv.mk false false none false "id42") →
          url = createObjectURL (StoreEnv.mk false false none false "id42")) := by
  refine ⟨by decide, ?_, ?_⟩
  · intro u hu
    simp at hu
  · exact storeRecording_resolves_nonempty _ _ _ (by decide)
      (fun u hu => by simp at hu)

/-- C8 (code-bug evidence): a completed dialogue turn appends the user
utterance and the generated assistant text to the conversation, but the
session transcript is never extended by the turn handlers — it stays
exactly as it was, so it never grows by the new pair. -/
theorem handleUserSpeech_transcript_static (st : SessionState)
    (text ai : String) (gen : GenOutcome) :
    (handleUserSpeech st text gen).transcript = st.transcript ∧
      (debouncedHandleUserSpeech st text gen).1.transcript = st.transcript ∧
      (handleUserSpeech st text (.success ai)).conversation =
        st.conversation ++ [⟨"user", text⟩, ⟨"assistant", ai⟩] := by
  have hts : ∀ s g, (handleUserSpeech s text g).transcript = s.transcript := by
    intro s g
    unfold handleUserSpeech
    cases g with
    | success a => rfl
    | failure =>
      dsimp only
      split
      · rfl
      · rfl
  refine ⟨hts st gen, ?_, by simp [handleUserSpeech]⟩
  unfold debouncedHandleUserSpeech
  split
  · rfl
  · exact hts { st with lastSpeech := text } gen

/-- C9: an utterance identical to the last processed one is skipped by
the debounced handler — the session state is unchanged (no user turn is
appended) and no generation request is issued. -/
theorem duplicateUtterance_ignored (st : SessionState) (text : String)
    (gen : GenOutcome) (h : text = st.lastSpeech) :
    debouncedHandleUserSpeech st text gen = (st, false) := by
  unfold debouncedHandleUserSpeech
  rw [if_pos h]

/-- Witness for C9 at a concrete repeated utterance. -/
theorem duplicateUtterance_ignored_witness :
    ("I am doing well thanks" : String) =
        (SessionState.mk [] [] "I am doing well thanks").lastSpeech ∧
      debouncedHandleUserSpeech
          (SessionState.mk [] [] "I am doing well thanks")
          "I am doing well thanks" (.success "next") =
        (SessionState.mk [] [] "I am doing well thanks", false) :=
  ⟨by decide, duplicateUtterance_ignored _ _ _ (by decide)⟩

/-- C10: `storeRecording` on an empty fragment list still resolves — the
internal "No recording data provided" throw is caught by the outer
handler, which returns the object URL built from the (empty) blob. -/
theorem storeRecording_emptyInput_resolves (env : StoreEnv)
    (sessionId : String) :
    storeRecording env sessionId [] = .ok (createObjectURL env) := rfl

end InterviewApp
